import Mathlib

/-!
Verification of the navigation-configuration engine specified for the
vuejs-kenya-docs repository (spec.md sections 3, 4, 6 and 8).

The repository holds the markdown content documents and, at
`src/.vitepress/config.mts`, the declarative VitePress configuration
literal (nav bar and sidebar); the navigation tree and the document
registry below are embedded from those files.  The specification
describes a navigation model (Document Registry, Navigation Tree,
Config Validator, Navigation Resolver) over that literal, and itself
states (section 1) that the repository does not implement the validator
or resolver: those two components are specified, not implemented, and
are therefore embedded here directly from the specification text.
-/

/-- A leaf navigation entry: display text paired with a document path
(spec section 3, NavLink). -/
structure NavLink where
  text : String
  path : String
deriving DecidableEq, Repr

/-- A node of the navigation structure: either a leaf NavLink or a
NavGroup, i.e. a named ordered collection of child nodes
(spec section 3, NavGroup; the input format of spec section 6). -/
inductive NavItem where
  | link (l : NavLink) : NavItem
  | group (text : String) (items : List NavItem) : NavItem
deriving Repr

/-- The root aggregate: the ordered nav-bar links plus the ordered
sidebar sections (spec section 3, NavigationTree). -/
structure NavigationTree where
  nav : List NavLink
  sidebar : List NavItem
deriving Repr

/-- The Document Registry: a flat collection of known content paths
(spec section 4.1). -/
structure Registry where
  paths : List String
deriving DecidableEq, Repr

/-- `exists(path)` of spec section 4.1: exact match against the set of
known paths (named `pathExists` because `exists` is reserved in Lean). -/
def Registry.pathExists (r : Registry) (p : String) : Bool :=
  r.paths.contains p

/-- `allPaths()` of spec section 4.1. -/
def Registry.allPaths (r : Registry) : List String :=
  r.paths

/-- The four blocking issue kinds of spec section 3
(orphan-document reports are optional and informational per
spec section 4.3 and are not part of `IssueKind`). -/
inductive IssueKind where
  | duplicatePath
  | brokenLink
  | emptyGroup
  | duplicateText
deriving DecidableEq, Repr

/-- A location is a path within the tree: the child index and display
text of every node from the root down (spec section 3, the
`location : path-within-tree` field). -/
abbrev Loc : Type := List (Nat × String)

/-- One discovered problem (spec section 3, ValidationIssue).  For the
two duplicate kinds both locations are reported: `location` is the
first occurrence in traversal order and `related` the occurrence that
triggered the report (the tie-break rule of spec section 4.3). -/
structure ValidationIssue where
  kind : IssueKind
  message : String
  location : Loc
  related : Option Loc
deriving DecidableEq, Repr

/-- One step of the single depth-first left-to-right traversal of spec
section 4.3: visiting a NavLink, or visiting a NavGroup (recording
whether its `items` is empty, and, when an earlier sibling group under
the same parent carries the same text, that sibling's location). -/
inductive DfsStep where
  | vlink (loc : Loc) (l : NavLink)
  | vgroup (loc : Loc) (text : String) (noItems : Bool) (sameTextSibling : Option Loc)
deriving DecidableEq, Repr

/-- First-binding lookup in a string-to-location map (both the
path-to-first-location mapping and the sibling-text mapping of spec
section 4.3 keep the first binding for a key). -/
def lookupLoc : List (String × Loc) → String → Option Loc
  | [], _ => none
  | (k, v) :: rest, p => if k = p then some v else lookupLoc rest p

/-- Sibling bookkeeping for `DuplicateText` (spec section 4.3): a map
from group text to the first sibling location that used it, extended
only when the next sibling is a group with a fresh text. -/
def sibRecord (loc : Loc) (idx : Nat) (sibs : List (String × Loc)) : NavItem → List (String × Loc)
  | .link _ => sibs
  | .group t _ =>
      if (lookupLoc sibs t).isSome then sibs else sibs ++ [(t, loc ++ [(idx, t)])]

mutual

/-- Depth-first enumeration of one navigation node (spec section 4.3:
single traversal, depth-first, left-to-right, matching render order). -/
def itemSteps (loc : Loc) (idx : Nat) (sibs : List (String × Loc)) : NavItem → List DfsStep
  | .link l => [.vlink (loc ++ [(idx, l.text)]) l]
  | .group t items =>
      .vgroup (loc ++ [(idx, t)]) t items.isEmpty (lookupLoc sibs t)
        :: itemsSteps (loc ++ [(idx, t)]) 0 [] items

/-- Depth-first enumeration of an ordered list of sibling nodes,
threading the child index and the sibling-text record. -/
def itemsSteps (loc : Loc) (idx : Nat) (sibs : List (String × Loc)) : List NavItem → List DfsStep
  | [] => []
  | i :: rest =>
      itemSteps loc idx sibs i ++ itemsSteps loc (idx + 1) (sibRecord loc idx sibs i) rest

end

/-- Nav-bar links visited first, in order, under the `nav` root. -/
def navSteps (idx : Nat) : List NavLink → List DfsStep
  | [] => []
  | l :: rest => .vlink [(0, "nav"), (idx, l.text)] l :: navSteps (idx + 1) rest

/-- The full traversal of a NavigationTree: nav-bar entries first, then
the sidebar sections, in input order (spec sections 4.2 and 4.3). -/
def treeSteps (t : NavigationTree) : List DfsStep :=
  navSteps 0 t.nav ++ itemsSteps [(1, "sidebar")] 0 [] t.sidebar

/-- Issues contributed by one visited NavLink (spec section 4.3): a
`DuplicatePath` reported against the first location that used the path
when the path is already recorded, and a `BrokenLink` when the registry
does not know the path. -/
def linkIssues (reg : Registry) (seen : List (String × Loc)) (loc : Loc) (l : NavLink) :
    List ValidationIssue :=
  (match lookupLoc seen l.path with
    | some firstLoc =>
        [⟨.duplicatePath, "duplicate path: " ++ l.path, firstLoc, some loc⟩]
    | none => [])
  ++ (if reg.pathExists l.path then []
      else [⟨.brokenLink, "broken link: " ++ l.path, loc, none⟩])

/-- Issues contributed by one traversal step. -/
def stepIssues (reg : Registry) (seen : List (String × Loc)) : DfsStep → List ValidationIssue
  | .vlink loc l => linkIssues reg seen loc l
  | .vgroup loc t noItems sameTextSibling =>
      (if noItems then [⟨.emptyGroup, "empty group: " ++ t, loc, none⟩] else [])
      ++ (match sameTextSibling with
          | some firstLoc =>
              [⟨.duplicateText, "duplicate sibling group text: " ++ t, firstLoc, some loc⟩]
          | none => [])

/-- The path-to-first-location mapping of spec section 4.3, extended at
each NavLink whose path is new; on a duplicate the first binding is
kept. -/
def seenAfter (seen : List (String × Loc)) : DfsStep → List (String × Loc)
  | .vlink loc l => if (lookupLoc seen l.path).isSome then seen else seen ++ [(l.path, loc)]
  | .vgroup _ _ _ _ => seen

/-- The accumulator pass of spec section 4.3: one fold over the
traversal, collecting every issue and never stopping at the first. -/
def validateSteps (reg : Registry) : List DfsStep → List (String × Loc) → List ValidationIssue
  | [], _ => []
  | s :: rest, seen => stepIssues reg seen s ++ validateSteps reg rest (seenAfter seen s)

/-- The Config Validator (spec section 4.3): the complete list of
ValidationIssue for a built tree, in traversal order. -/
def validate (reg : Registry) (t : NavigationTree) : List ValidationIssue :=
  validateSteps reg (treeSteps t) []

mutual

/-- All NavLinks below one node, in depth-first tree order
(the flattening of spec section 4.4). -/
def flattenItem : NavItem → List NavLink
  | .link l => [l]
  | .group _ items => flattenItems items

/-- All NavLinks below an ordered list of nodes, in depth-first tree
order. -/
def flattenItems : List NavItem → List NavLink
  | [] => []
  | i :: rest => flattenItem i ++ flattenItems rest

end

/-- Neighbour scan of the flattened sidebar sequence: at the first link
whose path matches, the previous link and the head of the remainder are
the neighbours; an unmatched path yields `(none, none)`
(spec section 4.4). -/
def prevNextScan (currentPath : String) (prev : Option NavLink) :
    List NavLink → Option NavLink × Option NavLink
  | [] => (none, none)
  | l :: rest =>
      if l.path = currentPath then (prev, rest.head?)
      else prevNextScan currentPath (some l) rest

/-- `previousAndNext(currentPath)` of spec section 4.4: neighbours of
the current path in the depth-first flattening of the whole sidebar. -/
def previousAndNext (t : NavigationTree) (currentPath : String) :
    Option NavLink × Option NavLink :=
  prevNextScan currentPath none (flattenItems t.sidebar)

/-- The answer to a query for one document path
(spec section 3, ResolvedPageContext). -/
structure ResolvedPageContext where
  activeNavLinkPath : Option String
  sidebarGroups : List NavItem
  previous : Option NavLink
  next : Option NavLink
deriving Repr

/-- Whether some NavLink below this node carries the given path. -/
def itemHasPath (i : NavItem) (p : String) : Bool :=
  (flattenItem i).any (fun l => l.path == p)

/-- `activeContext(currentPath)` of spec section 4.4: the active
nav-bar entry by exact match, the sidebar sections containing the
current path (the full sidebar as fallback when nothing matches,
never an error), and the prev/next neighbours. -/
def activeContext (t : NavigationTree) (currentPath : String) : ResolvedPageContext :=
  let groups := t.sidebar.filter (fun i => itemHasPath i currentPath)
  let pn := previousAndNext t currentPath
  { activeNavLinkPath := (t.nav.find? (fun l => l.path == currentPath)).map NavLink.path
    sidebarGroups := if groups.isEmpty then t.sidebar else groups
    previous := pn.1
    next := pn.2 }

/-- The Document Registry built from the repository's content
documents (spec sections 2 and 4.1: enumerate the available documents
by path).  The routed documents are the home page `/` (index.md), the
thirteen markdown documents of `fundamentals/` and the six of
`project-guides/`.  Five content files are stored under unrecorded
names; their route slugs follow from their titles and the sidebar
texts of `src/.vitepress/config.mts`: the slots, component
communication, Vite and events tutorials are `slots-content`,
`component-communication`, `vite-setup` and `methods-events`, and the
weather tutorial is `weather-dashboard`.  No document matches the
configuration's `reactive-data` link, and `composables` and
`router-navigation` exist but are linked from nowhere.  The repository
README is not a content page and is not registered. -/
def siteRegistry : Registry :=
  ⟨[ "/",
     "/fundamentals/composables",
     "/fundamentals/computed-watchers",
     "/fundamentals/conditional-lists",
     "/fundamentals/introduction",
     "/fundamentals/lifecycle-hooks",
     "/fundamentals/options-vs-composition-api",
     "/fundamentals/router-navigation",
     "/fundamentals/simple-calculator",
     "/fundamentals/vue-cli-starter",
     "/fundamentals/slots-content",
     "/fundamentals/component-communication",
     "/fundamentals/vite-setup",
     "/fundamentals/methods-events",
     "/project-guides/contact-manager",
     "/project-guides/custom-directives",
     "/project-guides/dynamic-components",
     "/project-guides/shopping-cart",
     "/project-guides/todo-app-complete",
     "/project-guides/weather-dashboard" ]⟩

/-- The items of the `Fundamentals` sidebar group, transcribed from
`src/.vitepress/config.mts` (themeConfig.sidebar, first group) in
input order: twelve leaf links. -/
def fundamentalsItems : List NavItem :=
  [ .link ⟨"Introduction", "/fundamentals/introduction"⟩,
    .link ⟨"Reactive data", "/fundamentals/reactive-data"⟩,
    .link ⟨"Methods events", "/fundamentals/methods-events"⟩,
    .link ⟨"Conditional lists", "/fundamentals/conditional-lists"⟩,
    .link ⟨"Simple calculator", "/fundamentals/simple-calculator"⟩,
    .link ⟨"Options vs Composition API", "/fundamentals/options-vs-composition-api"⟩,
    .link ⟨"Vue CLI starter", "/fundamentals/vue-cli-starter"⟩,
    .link ⟨"Vite setup", "/fundamentals/vite-setup"⟩,
    .link ⟨"Component communication", "/fundamentals/component-communication"⟩,
    .link ⟨"Computed watchers", "/fundamentals/computed-watchers"⟩,
    .link ⟨"Lifecycle hooks", "/fundamentals/lifecycle-hooks"⟩,
    .link ⟨"Slots content", "/fundamentals/slots-content"⟩ ]

/-- The items of the `Project Guides` sidebar group, transcribed from
`src/.vitepress/config.mts` (themeConfig.sidebar, second group) in
input order: six leaf links. -/
def projectGuidesItems : List NavItem :=
  [ .link ⟨"Todo app", "/project-guides/todo-app-complete"⟩,
    .link ⟨"Shopping cart", "/project-guides/shopping-cart"⟩,
    .link ⟨"Weather dashboard", "/project-guides/weather-dashboard"⟩,
    .link ⟨"Contact manager", "/project-guides/contact-manager"⟩,
    .link ⟨"Dynamic components", "/project-guides/dynamic-components"⟩,
    .link ⟨"Custom directives", "/project-guides/custom-directives"⟩ ]

/-- The NavigationTree built from the configuration literal of
`src/.vitepress/config.mts`: the three nav-bar entries of
themeConfig.nav and the two sidebar groups of themeConfig.sidebar,
in input order. -/
def siteTree : NavigationTree :=
  { nav :=
      [ ⟨"Home", "/"⟩,
        ⟨"Fundamentals", "/fundamentals/introduction"⟩,
        ⟨"Project Guides", "/project-guides/todo-app-complete"⟩ ],
    sidebar :=
      [ .group "Fundamentals" fundamentalsItems,
        .group "Project Guides" projectGuidesItems ] }

/-- Every NavLink of the whole tree in traversal order: the nav bar
first, then the depth-first flattening of the sidebar. -/
def allNavLinks (t : NavigationTree) : List NavLink :=
  t.nav ++ flattenItems t.sidebar

/-- No two adjacent characters are both slashes. -/
def noDoubleSlash : List Char → Bool
  | [] => true
  | [_] => true
  | a :: b :: rest => !(a == '/' && b == '/') && noDoubleSlash (b :: rest)

/-- The DocumentPath invariant of spec section 3: non-empty and
normalized, i.e. no trailing slash and no double slashes. -/
def isNormalizedPath (p : String) : Bool :=
  !p.toList.isEmpty && !(p.toList.getLast? == some '/') && noDoubleSlash p.toList

/-- The NavLinks visited by a traversal, in order. -/
def stepLinks : List DfsStep → List NavLink
  | [] => []
  | .vlink _ l :: rest => l :: stepLinks rest
  | .vgroup _ _ _ _ :: rest => stepLinks rest

/-- Counts the entries of a path sequence that repeat an earlier entry
(or one of the starting keys): the number of duplicate-path problems of
a configuration, computed on the bare path sequence alone. -/
def dupCountFrom : List String → List String → Nat
  | _, [] => 0
  | ks, p :: rest =>
      (if p ∈ ks then 1 else 0) + dupCountFrom (if p ∈ ks then ks else ks ++ [p]) rest

/-- The number of broken-link problems of a link sequence: links whose
path the registry does not know. -/
def brokenCount (reg : Registry) (ls : List NavLink) : Nat :=
  (ls.filter (fun l => !reg.pathExists l.path)).length

/-- Whether a traversal step visits a group with no items. -/
def stepIsEmptyGroup : DfsStep → Bool
  | .vgroup _ _ true _ => true
  | _ => false

/-- Whether a traversal step visits a group whose text repeats an
earlier sibling's text. -/
def stepIsDupText : DfsStep → Bool
  | .vgroup _ _ _ (some _) => true
  | _ => false

/-- The `EmptyGroup` issues a traversal must produce, read off the
steps alone. -/
def emptyGroupIssuesOf : List DfsStep → List ValidationIssue
  | [] => []
  | .vgroup loc t true _ :: rest =>
      ⟨.emptyGroup, "empty group: " ++ t, loc, none⟩ :: emptyGroupIssuesOf rest
  | _ :: rest => emptyGroupIssuesOf rest

/-- The `DuplicateText` issues a traversal must produce, read off the
steps alone. -/
def dupTextIssuesOf : List DfsStep → List ValidationIssue
  | [] => []
  | .vgroup loc t _ (some firstLoc) :: rest =>
      ⟨.duplicateText, "duplicate sibling group text: " ++ t, firstLoc, some loc⟩
        :: dupTextIssuesOf rest
  | _ :: rest => dupTextIssuesOf rest

/-- Whether a navigation node is a leaf NavLink. -/
def itemIsLeaf : NavItem → Bool
  | .link _ => true
  | .group _ _ => false

/-- A registry and tree with four independent problems, none
interacting: two duplicate paths, one broken link, one empty group
(the validation-completeness example of spec section 8). -/
def fourIssueRegistry : Registry :=
  ⟨["/a", "/b"]⟩

/-- See `fourIssueRegistry`. -/
def fourIssueTree : NavigationTree :=
  ⟨[], [ .group "G"
           [ .link ⟨"A", "/a"⟩, .link ⟨"A again", "/a"⟩,
             .link ⟨"B", "/b"⟩, .link ⟨"B again", "/b"⟩,
             .link ⟨"C", "/c"⟩ ],
         .group "H" [] ]⟩

/-- Registry for the sibling-group-text scenarios of spec section 8. -/
def xyRegistry : Registry :=
  ⟨["/x", "/y"]⟩

/-- Two sibling top-level groups sharing the text `Fundamentals`
(the duplicate-sibling-group-names scenario of spec section 8). -/
def dupSiblingTree : NavigationTree :=
  ⟨[], [ .group "Fundamentals" [.link ⟨"X", "/x"⟩],
         .group "Fundamentals" [.link ⟨"Y", "/y"⟩] ]⟩

/-- Two groups both named `Fundamentals` under two different top-level
parents (allowed per spec sections 4.3 and 8). -/
def cousinGroupsTree : NavigationTree :=
  ⟨[], [ .group "Area One" [.group "Fundamentals" [.link ⟨"X", "/x"⟩]],
         .group "Area Two" [.group "Fundamentals" [.link ⟨"Y", "/y"⟩]] ]⟩

/-- A tree whose single sidebar group has no items. -/
def emptyGroupTree : NavigationTree :=
  ⟨[], [.group "G" []]⟩

/-- The child items of a NavGroup node (a leaf has none). -/
def groupItems : NavItem → List NavItem
  | .link _ => []
  | .group _ items => items

/-- A minimal tree with one duplicated path: the nav-bar entry and the
single sidebar link share `/x`. -/
def dupDemoTree : NavigationTree :=
  ⟨[⟨"Home", "/x"⟩], [.group "S" [.link ⟨"X", "/x"⟩]]⟩

/-- The seen-paths state after consuming a list of traversal steps. -/
def seenFold (s : List (String × Loc)) (xs : List DfsStep) : List (String × Loc) :=
  xs.foldl seenAfter s

set_option maxRecDepth 4000

/-- A key bound in a map stays bound (to the same first binding) after
appending further entries. -/
theorem lookupLoc_append_of_some {s : List (String × Loc)} (t : List (String × Loc))
    {p : String} {v : Loc} (h : lookupLoc s p = some v) :
    lookupLoc (s ++ t) p = some v := by
  induction s with
  | nil => simp [lookupLoc] at h
  | cons a s ih =>
      obtain ⟨k, w⟩ := a
      by_cases hk : k = p
      · simp [lookupLoc, hk] at h ⊢
        exact h
      · simp [lookupLoc, hk] at h ⊢
        exact ih h

/-- Looking up a key absent from the front part of an appended map
falls through to the back part. -/
theorem lookupLoc_append_of_none {s : List (String × Loc)} (t : List (String × Loc))
    {p : String} (h : lookupLoc s p = none) :
    lookupLoc (s ++ t) p = lookupLoc t p := by
  induction s with
  | nil => simp
  | cons a s ih =>
      obtain ⟨k, w⟩ := a
      by_cases hk : k = p
      · simp [lookupLoc, hk] at h
      · simp [lookupLoc, hk] at h ⊢
        exact ih h

/-- A singleton map holds nothing for a different key. -/
theorem lookupLoc_singleton_ne {q p : String} {v : Loc} (h : q ≠ p) :
    lookupLoc [(q, v)] p = none := by
  simp [lookupLoc, h]

/-- A lookup succeeds exactly for the keys of the map. -/
theorem lookupLoc_isSome_iff {s : List (String × Loc)} {p : String} :
    (lookupLoc s p).isSome ↔ p ∈ s.map Prod.fst := by
  induction s with
  | nil => simp [lookupLoc]
  | cons a s ih =>
      obtain ⟨k, w⟩ := a
      by_cases hk : k = p
      · simp [lookupLoc, hk]
      · simp [lookupLoc, hk, ih, Ne.symm hk]

/-- The seen-paths mapping never loses or rebinds an existing binding
across one traversal step. -/
theorem lookupLoc_seenAfter_of_some {seen : List (String × Loc)} {p : String} {v : Loc}
    (h : lookupLoc seen p = some v) (e : DfsStep) :
    lookupLoc (seenAfter seen e) p = some v := by
  cases e with
  | vlink loc l =>
      by_cases hs : (lookupLoc seen l.path).isSome
      · simpa [seenAfter, hs] using h
      · simp only [seenAfter, hs, Bool.false_eq_true, if_false]
        exact lookupLoc_append_of_some _ h
  | vgroup loc t noItems sib => simpa [seenAfter] using h

/-- The seen-paths mapping never loses or rebinds an existing binding
across any run of traversal steps. -/
theorem lookupLoc_seenFold_of_some {s : List (String × Loc)} {p : String} {v : Loc}
    (h : lookupLoc s p = some v) (xs : List DfsStep) :
    lookupLoc (seenFold s xs) p = some v := by
  induction xs generalizing s with
  | nil => simpa [seenFold] using h
  | cons e rest ih => exact ih (lookupLoc_seenAfter_of_some h e)

/-- A path visited by no NavLink of a run of steps stays unbound in the
seen-paths mapping. -/
theorem lookupLoc_seenFold_of_none {p : String} (xs : List DfsStep)
    {s : List (String × Loc)} (hs : lookupLoc s p = none)
    (hxs : ∀ loc l, DfsStep.vlink loc l ∈ xs → l.path ≠ p) :
    lookupLoc (seenFold s xs) p = none := by
  induction xs generalizing s with
  | nil => simpa [seenFold] using hs
  | cons e rest ih =>
      have hrest : ∀ loc l, DfsStep.vlink loc l ∈ rest → l.path ≠ p := by
        intro loc l hl
        exact hxs loc l (List.mem_cons_of_mem _ hl)
      have hstep : lookupLoc (seenAfter s e) p = none := by
        cases e with
        | vlink loc l =>
            by_cases hsome : (lookupLoc s l.path).isSome
            · simpa [seenAfter, hsome] using hs
            · simp only [seenAfter, hsome, Bool.false_eq_true, if_false]
              rw [lookupLoc_append_of_none _ hs]
              exact lookupLoc_singleton_ne (hxs loc l (List.mem_cons_self _ _))
        | vgroup loc t noItems sib => simpa [seenAfter] using hs
      exact ih hstep hrest

/-- The accumulator pass distributes over concatenation of step runs,
with the seen-paths state threaded through the front run. -/
theorem validateSteps_append (reg : Registry) (xs ys : List DfsStep)
    (s : List (String × Loc)) :
    validateSteps reg (xs ++ ys) s =
      validateSteps reg xs s ++ validateSteps reg ys (seenFold s xs) := by
  induction xs generalizing s with
  | nil => simp [validateSteps, seenFold]
  | cons e rest ih =>
      simp [validateSteps, seenFold, ih, List.append_assoc]

/-- Once a path is bound to its first location, every later NavLink
visit with that path emits the DuplicatePath issue carrying the first
location and the later visit's location. -/
theorem dup_issue_emitted (reg : Registry) {xs : List DfsStep} {s : List (String × Loc)}
    {p : String} {v loc : Loc} {l : NavLink}
    (hmem : DfsStep.vlink loc l ∈ xs) (hp : l.path = p) (h : lookupLoc s p = some v) :
    (⟨.duplicatePath, "duplicate path: " ++ p, v, some loc⟩ : ValidationIssue)
      ∈ validateSteps reg xs s := by
  induction xs generalizing s with
  | nil => cases hmem
  | cons e rest ih =>
      simp only [validateSteps]
      rcases List.mem_cons.mp hmem with he | he
      · subst he
        apply List.mem_append_left
        simp [stepIssues, linkIssues, hp, h]
      · exact List.mem_append_right _ (ih he (lookupLoc_seenAfter_of_some h e))

/-- The tie-break rule of spec section 4.3: when a path first occurs at
one NavLink of the traversal and occurs again later, the validator
emits a DuplicatePath issue reported against the first occurrence,
with the later occurrence as the related location. -/
theorem duplicate_reported_against_first (reg : Registry) (t : NavigationTree)
    (p : String) (loc1 loc2 : Loc) (l1 l2 : NavLink) (xs ys : List DfsStep)
    (hsplit : treeSteps t = xs ++ DfsStep.vlink loc1 l1 :: ys)
    (h1 : l1.path = p)
    (hfirst : ∀ loc l, DfsStep.vlink loc l ∈ xs → l.path ≠ p)
    (hmem : DfsStep.vlink loc2 l2 ∈ ys)
    (h2 : l2.path = p) :
    (⟨.duplicatePath, "duplicate path: " ++ p, loc1, some loc2⟩ : ValidationIssue)
      ∈ validate reg t := by
  unfold validate
  rw [hsplit, validateSteps_append]
  apply List.mem_append_right
  have hs1 : lookupLoc (seenFold [] xs) p = none :=
    lookupLoc_seenFold_of_none xs (by simp [lookupLoc]) hfirst
  simp only [validateSteps]
  apply List.mem_append_right
  apply dup_issue_emitted reg hmem h2
  have hs1' : lookupLoc (seenFold [] xs) l1.path = none := by
    rw [h1]
    exact hs1
  have hnotsome : ¬(lookupLoc (seenFold [] xs) l1.path).isSome = true := by
    simp [hs1']
  simp only [seenAfter, hnotsome, Bool.false_eq_true, if_false]
  rw [lookupLoc_append_of_none _ hs1]
  simp [lookupLoc, h1]

/-- A path matching no link of the list scans to no neighbours. -/
theorem prevNextScan_of_no_match {p : String} {xs : List NavLink}
    (h : ∀ l ∈ xs, l.path ≠ p) (prev : Option NavLink) :
    prevNextScan p prev xs = (none, none) := by
  induction xs generalizing prev with
  | nil => rfl
  | cons l rest ih =>
      have hl : l.path ≠ p := h l (List.mem_cons_self _ _)
      simp only [prevNextScan, if_neg hl]
      exact ih (fun x hx => h x (List.mem_cons_of_mem _ hx)) _

/-- Every link below a member node appears in the flattening of the
whole list of nodes. -/
theorem mem_flattenItems_of_mem {i : NavItem} {items : List NavItem} (hi : i ∈ items)
    {l : NavLink} (hl : l ∈ flattenItem i) : l ∈ flattenItems items := by
  induction items with
  | nil => cases hi
  | cons j rest ih =>
      simp only [flattenItems]
      rcases List.mem_cons.mp hi with he | he
      · subst he
        exact List.mem_append_left _ hl
      · exact List.mem_append_right _ (ih he)

/-- One NavLink visit contributes one issue per problem: one when its
path repeats an already-seen path, one when the registry misses it. -/
theorem linkIssues_length (reg : Registry) (seen : List (String × Loc)) (loc : Loc)
    (l : NavLink) :
    (linkIssues reg seen loc l).length =
      (if l.path ∈ seen.map Prod.fst then 1 else 0)
      + (if reg.pathExists l.path then 0 else 1) := by
  have hmem := @lookupLoc_isSome_iff seen l.path
  cases h : lookupLoc seen l.path with
  | none =>
      have : l.path ∉ seen.map Prod.fst := by
        rw [← hmem]
        simp [h]
      by_cases hb : reg.pathExists l.path <;> simp [linkIssues, h, hb, this]
  | some v =>
      have : l.path ∈ seen.map Prod.fst := by
        rw [← hmem]
        simp [h]
      by_cases hb : reg.pathExists l.path <;> simp [linkIssues, h, hb, this]

/-- The keys of the seen-paths mapping after one NavLink visit: the
path is appended exactly when it is new. -/
theorem seenAfter_keys_vlink (seen : List (String × Loc)) (loc : Loc) (l : NavLink) :
    (seenAfter seen (.vlink loc l)).map Prod.fst =
      if l.path ∈ seen.map Prod.fst then seen.map Prod.fst
      else seen.map Prod.fst ++ [l.path] := by
  have hmem := @lookupLoc_isSome_iff seen l.path
  by_cases h : l.path ∈ seen.map Prod.fst
  · have : (lookupLoc seen l.path).isSome := hmem.mpr h
    simp [seenAfter, this, h]
  · have : ¬(lookupLoc seen l.path).isSome = true := by
      rw [hmem]
      exact h
    simp [seenAfter, this, h]

/-- Unfolding step for the broken-link count. -/
theorem brokenCount_cons (reg : Registry) (l : NavLink) (ls : List NavLink) :
    brokenCount reg (l :: ls) =
      (if reg.pathExists l.path then 0 else 1) + brokenCount reg ls := by
  by_cases hb : reg.pathExists l.path <;> simp [brokenCount, hb, Nat.add_comm]

/-- Validation completeness over any step run: the number of issues the
single stateful pass emits equals the sum of the four per-kind problem
counts, each computed independently on the run. -/
theorem validateSteps_length (reg : Registry) (xs : List DfsStep)
    (s : List (String × Loc)) :
    (validateSteps reg xs s).length =
      dupCountFrom (s.map Prod.fst) ((stepLinks xs).map NavLink.path)
      + brokenCount reg (stepLinks xs)
      + (xs.filter stepIsEmptyGroup).length
      + (xs.filter stepIsDupText).length := by
  induction xs generalizing s with
  | nil => simp [validateSteps, stepLinks, dupCountFrom, brokenCount]
  | cons e rest ih =>
      cases e with
      | vlink loc l =>
          simp only [validateSteps, List.length_append, linkIssues_length, stepIssues]
          rw [ih]
          simp only [stepLinks, List.map_cons, dupCountFrom, seenAfter_keys_vlink,
            brokenCount_cons]
          have hfe : stepIsEmptyGroup (.vlink loc l) = false := rfl
          have hfd : stepIsDupText (.vlink loc l) = false := rfl
          simp only [List.filter_cons, hfe, hfd, Bool.false_eq_true, if_false]
          by_cases h : l.path ∈ s.map Prod.fst
          · simp only [h, if_true]
            omega
          · simp only [h, if_false]
            omega
      | vgroup loc txt noItems sib =>
          simp only [validateSteps, List.length_append, stepIssues, seenAfter, stepLinks]
          rw [ih]
          cases noItems <;> cases sib <;>
            simp [stepIsEmptyGroup, stepIsDupText, List.filter_cons] <;> omega

/-- A NavLink visit contributes no DuplicateText issue. -/
theorem linkIssues_filter_dupText (reg : Registry) (seen : List (String × Loc))
    (loc : Loc) (l : NavLink) :
    (linkIssues reg seen loc l).filter (fun i => i.kind == .duplicateText) = [] := by
  cases h : lookupLoc seen l.path <;> by_cases hb : reg.pathExists l.path <;>
    simp [linkIssues, h, hb]

/-- A NavLink visit contributes no EmptyGroup issue. -/
theorem linkIssues_filter_empty (reg : Registry) (seen : List (String × Loc))
    (loc : Loc) (l : NavLink) :
    (linkIssues reg seen loc l).filter (fun i => i.kind == .emptyGroup) = [] := by
  cases h : lookupLoc seen l.path <;> by_cases hb : reg.pathExists l.path <;>
    simp [linkIssues, h, hb]

/-- The DuplicateText issues of a pass are exactly those read off the
group visits whose text repeats an earlier sibling's text. -/
theorem validateSteps_filter_dupText (reg : Registry) (xs : List DfsStep)
    (s : List (String × Loc)) :
    (validateSteps reg xs s).filter (fun i => i.kind == .duplicateText) =
      dupTextIssuesOf xs := by
  induction xs generalizing s with
  | nil => simp [validateSteps, dupTextIssuesOf]
  | cons e rest ih =>
      simp only [validateSteps, List.filter_append]
      cases e with
      | vlink loc l =>
          simp only [stepIssues]
          rw [linkIssues_filter_dupText, ih]
          simp [dupTextIssuesOf]
      | vgroup loc txt noItems sib =>
          rw [ih]
          cases noItems <;> cases sib <;> simp [stepIssues, dupTextIssuesOf]

/-- The EmptyGroup issues of a pass are exactly those read off the
group visits with no items. -/
theorem validateSteps_filter_empty (reg : Registry) (xs : List DfsStep)
    (s : List (String × Loc)) :
    (validateSteps reg xs s).filter (fun i => i.kind == .emptyGroup) =
      emptyGroupIssuesOf xs := by
  induction xs generalizing s with
  | nil => simp [validateSteps, emptyGroupIssuesOf]
  | cons e rest ih =>
      simp only [validateSteps, List.filter_append]
      cases e with
      | vlink loc l =>
          simp only [stepIssues]
          rw [linkIssues_filter_empty, ih]
          simp [emptyGroupIssuesOf]
      | vgroup loc txt noItems sib =>
          rw [ih]
          cases noItems <;> cases sib <;> simp [stepIssues, emptyGroupIssuesOf]

/-- Every group visit with no items yields its EmptyGroup issue in the
read-off list. -/
theorem mem_emptyGroupIssuesOf {xs : List DfsStep} {loc : Loc} {txt : String}
    {sib : Option Loc} (h : DfsStep.vgroup loc txt true sib ∈ xs) :
    (⟨.emptyGroup, "empty group: " ++ txt, loc, none⟩ : ValidationIssue)
      ∈ emptyGroupIssuesOf xs := by
  induction xs with
  | nil => cases h
  | cons e rest ih =>
      rcases List.mem_cons.mp h with he | he
      · subst he
        simp [emptyGroupIssuesOf]
      · cases e with
        | vlink loc2 l => simpa [emptyGroupIssuesOf] using ih he
        | vgroup loc2 t2 noItems2 sib2 =>
            cases noItems2 with
            | false => simpa [emptyGroupIssuesOf] using ih he
            | true =>
                simp only [emptyGroupIssuesOf]
                exact List.mem_cons_of_mem _ (ih he)

/-- C1 counterexample: the `Reactive data` sidebar link of the
configuration literal carries the path `/fundamentals/reactive-data`,
which no content document backs, so `Registry.exists` is false for a
linked path and validating the configuration does emit a BrokenLink
issue — refuting the claim that every linked path exists in the
registry and that no BrokenLink issue is emitted. -/
theorem claimC1_broken_link_counterexample :
    (⟨"Reactive data", "/fundamentals/reactive-data"⟩ : NavLink)
      ∈ flattenItems siteTree.sidebar ∧
    siteRegistry.pathExists "/fundamentals/reactive-data" = false ∧
    (allNavLinks siteTree).all (fun l => siteRegistry.pathExists l.path) = false ∧
    (validate siteRegistry siteTree).any (fun i => i.kind == .brokenLink) = true := by
  refine ⟨by decide, by decide, by decide, by decide⟩

/-- C1 (amended): every NavLink of the NavigationTree built from the
configuration literal except the `Reactive data` sidebar link carries
a path the Document Registry knows, and validating this configuration
emits exactly one BrokenLink issue, for `/fundamentals/reactive-data`
at that link's location. -/
theorem claimC1_links_resolve_amended :
    (allNavLinks siteTree).all
      (fun l => siteRegistry.pathExists l.path
        || l.path == "/fundamentals/reactive-data") = true ∧
    (validate siteRegistry siteTree).filter (fun i => i.kind == .brokenLink) =
      [⟨.brokenLink, "broken link: /fundamentals/reactive-data",
         [(1, "sidebar"), (0, "Fundamentals"), (1, "Reactive data")], none⟩] := by
  constructor <;> decide

/-- C2 counterexample: two distinct NavLinks of the configuration (the
`Fundamentals` nav-bar entry and the `Introduction` sidebar link) share
the path `/fundamentals/introduction`, and validating the configuration
does emit a DuplicatePath issue — refuting the claim that no path is
used twice and that validation emits no DuplicatePath issue. -/
theorem claimC2_shared_path_counterexample :
    (⟨"Fundamentals", "/fundamentals/introduction"⟩ : NavLink) ∈ siteTree.nav ∧
    (⟨"Introduction", "/fundamentals/introduction"⟩ : NavLink)
      ∈ flattenItems siteTree.sidebar ∧
    (⟨"Fundamentals", "/fundamentals/introduction"⟩ : NavLink)
      ≠ ⟨"Introduction", "/fundamentals/introduction"⟩ ∧
    (validate siteRegistry siteTree).any (fun i => i.kind == .duplicatePath) = true := by
  refine ⟨by decide, by decide, by decide, by decide⟩

/-- C2 (amended): within the sidebar alone no path is used by two
NavLinks, but each nav-bar section entry reuses the opening document of
its sidebar section, so validation emits exactly two DuplicatePath
issues, each reported against the first occurrence in depth-first
left-to-right traversal order (the nav-bar entry) with both locations
included; and in general, whenever two NavLinks share a path, the
validator emits a DuplicatePath issue reported against the first
occurrence in traversal order, with both locations included. -/
theorem claimC2_duplicate_reporting_amended :
    ((flattenItems siteTree.sidebar).map NavLink.path).Nodup ∧
    (validate siteRegistry siteTree).filter (fun i => i.kind == .duplicatePath) =
      [ ⟨.duplicatePath, "duplicate path: /fundamentals/introduction",
          [(0, "nav"), (1, "Fundamentals")],
          some [(1, "sidebar"), (0, "Fundamentals"), (0, "Introduction")]⟩,
        ⟨.duplicatePath, "duplicate path: /project-guides/todo-app-complete",
          [(0, "nav"), (2, "Project Guides")],
          some [(1, "sidebar"), (1, "Project Guides"), (0, "Todo app")]⟩ ] ∧
    (∀ (reg : Registry) (t : NavigationTree) (p : String) (loc1 loc2 : Loc)
        (l1 l2 : NavLink) (xs ys : List DfsStep),
      treeSteps t = xs ++ DfsStep.vlink loc1 l1 :: ys →
      l1.path = p →
      (∀ loc l, DfsStep.vlink loc l ∈ xs → l.path ≠ p) →
      DfsStep.vlink loc2 l2 ∈ ys →
      l2.path = p →
      (⟨.duplicatePath, "duplicate path: " ++ p, loc1, some loc2⟩ : ValidationIssue)
        ∈ validate reg t) := by
  refine ⟨by decide, by decide, ?_⟩
  intro reg t p loc1 loc2 l1 l2 xs ys hsplit h1 hfirst hmem h2
  exact duplicate_reported_against_first reg t p loc1 loc2 l1 l2 xs ys
    hsplit h1 hfirst hmem h2

/-- C2 witness: the general duplicate-reporting conjunct applied to a
concrete one-duplicate tree. -/
theorem claimC2_duplicate_reporting_witness :
    (⟨.duplicatePath, "duplicate path: /x", [(0, "nav"), (0, "Home")],
       some [(1, "sidebar"), (0, "S"), (0, "X")]⟩ : ValidationIssue)
      ∈ validate xyRegistry dupDemoTree :=
  claimC2_duplicate_reporting_amended.2.2 xyRegistry dupDemoTree "/x"
    [(0, "nav"), (0, "Home")] [(1, "sidebar"), (0, "S"), (0, "X")]
    ⟨"Home", "/x"⟩ ⟨"X", "/x"⟩ []
    [ DfsStep.vgroup [(1, "sidebar"), (0, "S")] "S" false none,
      DfsStep.vlink [(1, "sidebar"), (0, "S"), (0, "X")] ⟨"X", "/x"⟩ ]
    (by decide) rfl
    (by intro loc l h; exact absurd h (List.not_mem_nil _))
    (by decide) rfl

/-- C3: `activeContext` and `previousAndNext` are total Lean functions
over any string input, and for any tree and any path matching no
nav-bar link and no sidebar link, `activeContext` returns the
well-formed fallback context (no active nav path, the full sidebar
groups, no neighbours) and `previousAndNext` returns no neighbours. -/
theorem claimC3_resolver_total_fallback (t : NavigationTree) (p : String)
    (hnav : ∀ l ∈ t.nav, l.path ≠ p)
    (hside : ∀ l ∈ flattenItems t.sidebar, l.path ≠ p) :
    activeContext t p =
      { activeNavLinkPath := none, sidebarGroups := t.sidebar,
        previous := none, next := none } ∧
    previousAndNext t p = (none, none) := by
  have hpn : previousAndNext t p = (none, none) :=
    prevNextScan_of_no_match hside none
  constructor
  · have hfind : t.nav.find? (fun l => l.path == p) = none := by
      rw [List.find?_eq_none]
      intro l hl
      simp [hnav l hl]
    have hfilter : t.sidebar.filter (fun i => itemHasPath i p) = [] := by
      rw [List.filter_eq_nil_iff]
      intro i hi
      simp only [itemHasPath, Bool.not_eq_true, List.any_eq_false]
      intro l hl
      simp [hside l (mem_flattenItems_of_mem hi hl)]
    simp [activeContext, hfind, hfilter, hpn]
  · exact hpn

/-- C3 witness: the fallback theorem applied to the site tree and the
empty string, which matches nothing. -/
theorem claimC3_resolver_total_witness :
    activeContext siteTree "" =
      { activeNavLinkPath := none, sidebarGroups := siteTree.sidebar,
        previous := none, next := none } ∧
    previousAndNext siteTree "" = (none, none) :=
  claimC3_resolver_total_fallback siteTree "" (by decide) (by decide)

/-- C4 counterexample: not every linked path of the configuration
satisfies the DocumentPath invariant as stated — the `Home` nav-bar
link carries the root path `/`, which ends in a slash. -/
theorem claimC4_root_path_counterexample :
    (allNavLinks siteTree).all (fun l => isNormalizedPath l.path) = false ∧
    (⟨"Home", "/"⟩ : NavLink) ∈ siteTree.nav ∧
    isNormalizedPath "/" = false := by
  refine ⟨by decide, by decide, by decide⟩

/-- C4 (amended): every linked path of the configuration is non-empty
and free of double slashes, and every linked path other than the root
path `/` also has no trailing slash. -/
theorem claimC4_path_invariant_amended :
    (allNavLinks siteTree).all
      (fun l => !l.path.toList.isEmpty && noDoubleSlash l.path.toList) = true ∧
    (allNavLinks siteTree).all
      (fun l => isNormalizedPath l.path || l.path == "/") = true := by
  constructor <;> decide

/-- C5: on a sidebar of groups `[A: [p1, p2], B: [p3]]` with pairwise
distinct paths, `previousAndNext` computes neighbours in the
depth-first flattening: `p2` has previous `p1` and next `p3` (crossing
the group boundary), `p1` has no previous and next `p2`, and `p3` has
previous `p2` and no next. -/
theorem claimC5_prev_next_flattening (t1 t2 t3 p1 p2 p3 : String)
    (h12 : p1 ≠ p2) (h13 : p1 ≠ p3) (h23 : p2 ≠ p3) :
    previousAndNext
        ⟨[], [.group "A" [.link ⟨t1, p1⟩, .link ⟨t2, p2⟩], .group "B" [.link ⟨t3, p3⟩]]⟩ p2
      = (some ⟨t1, p1⟩, some ⟨t3, p3⟩) ∧
    previousAndNext
        ⟨[], [.group "A" [.link ⟨t1, p1⟩, .link ⟨t2, p2⟩], .group "B" [.link ⟨t3, p3⟩]]⟩ p1
      = (none, some ⟨t2, p2⟩) ∧
    previousAndNext
        ⟨[], [.group "A" [.link ⟨t1, p1⟩, .link ⟨t2, p2⟩], .group "B" [.link ⟨t3, p3⟩]]⟩ p3
      = (some ⟨t2, p2⟩, none) := by
  refine ⟨?_, ?_, ?_⟩ <;>
    simp [previousAndNext, flattenItems, flattenItem, prevNextScan,
      h12, h13, h23, Ne.symm h12, Ne.symm h13, Ne.symm h23]

/-- C5 witness: the flattening theorem applied at concrete texts and
paths. -/
theorem claimC5_prev_next_witness :
    previousAndNext
        ⟨[], [.group "A" [.link ⟨"One", "/a/one"⟩, .link ⟨"Two", "/a/two"⟩],
              .group "B" [.link ⟨"Three", "/b/three"⟩]]⟩ "/a/two"
      = (some ⟨"One", "/a/one"⟩, some ⟨"Three", "/b/three"⟩) ∧
    previousAndNext
        ⟨[], [.group "A" [.link ⟨"One", "/a/one"⟩, .link ⟨"Two", "/a/two"⟩],
              .group "B" [.link ⟨"Three", "/b/three"⟩]]⟩ "/a/one"
      = (none, some ⟨"Two", "/a/two"⟩) ∧
    previousAndNext
        ⟨[], [.group "A" [.link ⟨"One", "/a/one"⟩, .link ⟨"Two", "/a/two"⟩],
              .group "B" [.link ⟨"Three", "/b/three"⟩]]⟩ "/b/three"
      = (some ⟨"Two", "/a/two"⟩, none) :=
  claimC5_prev_next_flattening "One" "Two" "Three" "/a/one" "/a/two" "/b/three"
    (by decide) (by decide) (by decide)

/-- C6: the validator collects every issue in its single pass: for any
registry and tree the length of the issue list equals the sum of the
four independently computed problem counts (duplicate path occurrences,
broken links, empty groups, duplicate sibling texts); on the spec's
example with two duplicate paths, one broken link and one empty group,
it returns exactly those four issues. -/
theorem claimC6_validation_completeness :
    (∀ (reg : Registry) (t : NavigationTree),
        (validate reg t).length =
          dupCountFrom [] ((stepLinks (treeSteps t)).map NavLink.path)
          + brokenCount reg (stepLinks (treeSteps t))
          + ((treeSteps t).filter stepIsEmptyGroup).length
          + ((treeSteps t).filter stepIsDupText).length) ∧
    (validate fourIssueRegistry fourIssueTree).map ValidationIssue.kind =
      [.duplicatePath, .duplicatePath, .brokenLink, .emptyGroup] := by
  constructor
  · intro reg t
    have h := validateSteps_length reg (treeSteps t) []
    simpa [validate] using h
  · decide

/-- C7: DuplicateText issues are exactly those of group visits whose
text repeats an earlier sibling's text under the same parent (for any
registry and tree); the repository configuration's sibling groups have
distinct texts so it yields none; two sibling top-level groups both
named `Fundamentals` yield exactly one DuplicateText issue with both
locations; two groups named `Fundamentals` under different parents
yield no issue at all. -/
theorem claimC7_duplicate_text_scoping :
    (∀ (reg : Registry) (t : NavigationTree),
        (validate reg t).filter (fun i => i.kind == .duplicateText) =
          dupTextIssuesOf (treeSteps t)) ∧
    (validate siteRegistry siteTree).all (fun i => !(i.kind == .duplicateText)) = true ∧
    validate xyRegistry dupSiblingTree =
      [⟨.duplicateText, "duplicate sibling group text: Fundamentals",
         [(1, "sidebar"), (0, "Fundamentals")],
         some [(1, "sidebar"), (1, "Fundamentals")]⟩] ∧
    validate xyRegistry cousinGroupsTree = [] := by
  refine ⟨fun reg t => validateSteps_filter_dupText reg (treeSteps t) [],
    by decide, by decide, by decide⟩

/-- C8: every group visit with empty items yields an EmptyGroup issue
(for any registry and tree); every NavGroup of the repository
configuration has a non-empty items sequence, so validating it emits no
EmptyGroup issue; a tree with an empty group yields exactly its
EmptyGroup issue. -/
theorem claimC8_empty_group_detection :
    (∀ (reg : Registry) (t : NavigationTree) (loc : Loc) (txt : String) (sib : Option Loc),
        DfsStep.vgroup loc txt true sib ∈ treeSteps t →
        (⟨.emptyGroup, "empty group: " ++ txt, loc, none⟩ : ValidationIssue)
          ∈ validate reg t) ∧
    (treeSteps siteTree).all (fun st => !stepIsEmptyGroup st) = true ∧
    (validate siteRegistry siteTree).all (fun i => !(i.kind == .emptyGroup)) = true ∧
    validate xyRegistry emptyGroupTree =
      [⟨.emptyGroup, "empty group: G", [(1, "sidebar"), (0, "G")], none⟩] := by
  refine ⟨?_, by decide, by decide, by decide⟩
  intro reg t loc txt sib hmem
  have h := mem_emptyGroupIssuesOf hmem
  rw [← validateSteps_filter_empty reg (treeSteps t) []] at h
  exact List.mem_of_mem_filter h

/-- C8 witness: the empty-group conjunct applied to the concrete tree
whose single group `G` has no items. -/
theorem claimC8_empty_group_witness :
    (⟨.emptyGroup, "empty group: G", [(1, "sidebar"), (0, "G")], none⟩ : ValidationIssue)
      ∈ validate xyRegistry emptyGroupTree :=
  claimC8_empty_group_detection.1 xyRegistry emptyGroupTree
    [(1, "sidebar"), (0, "G")] "G" none (by decide)

/-- C9: the sidebar of the configuration literal has depth exactly two:
each top-level entry is a group none of whose items is a nested group,
and the depth-first flattening is the concatenation of the two groups'
item link lists in order. -/
theorem claimC9_sidebar_depth_two :
    siteTree.sidebar.all (fun g => !itemIsLeaf g && (groupItems g).all itemIsLeaf) = true ∧
    flattenItems siteTree.sidebar =
      flattenItems fundamentalsItems ++ flattenItems projectGuidesItems :=
  ⟨by decide, by decide⟩

/-- C10: restricted to the sidebar alone the link paths are pairwise
distinct — the twelve Fundamentals paths and the six Project Guides
paths — and the two groups' paths lie under the disjoint leading
segments `/fundamentals/` and `/project-guides/`. -/
theorem claimC10_sidebar_paths_distinct :
    ((flattenItems siteTree.sidebar).map NavLink.path).Nodup ∧
    (flattenItems fundamentalsItems).length = 12 ∧
    (flattenItems projectGuidesItems).length = 6 ∧
    (flattenItems fundamentalsItems).all
      (fun l => "/fundamentals/".toList.isPrefixOf l.path.toList) = true ∧
    (flattenItems projectGuidesItems).all
      (fun l => "/project-guides/".toList.isPrefixOf l.path.toList) = true ∧
    (flattenItems fundamentalsItems).all
      (fun l => !("/project-guides/".toList.isPrefixOf l.path.toList)) = true ∧
    (flattenItems projectGuidesItems).all
      (fun l => !("/fundamentals/".toList.isPrefixOf l.path.toList)) = true := by
  refine ⟨by decide, by decide, by decide, by decide, by decide, by decide, by decide⟩
